import Mathlib

/-!
Shallow embedding of the Sen1Floods11 dataset adapter (files `dataset.py`
and `sen1floods11_dataset.py`).

File contents are modelled as byte lists, the local filesystem as an
association list from path strings to bytes together with the set of
directories ensured by `mkdir`, and the remote DVC store as a partial
function from path strings to bytes.  The raster codec (`rasterio`) is an
opaque parameter: a decode function from bytes to a (band-array, profile)
pair, which may fail, and an encode function back to bytes.  Remote reads
are counted in the state so that claims about the number of `read_bytes`
calls can be stated.  Exceptions are modelled with `Except`; since Python
exceptions propagate while filesystem side effects persist, every stateful
operation returns the final state alongside the result.
-/

/-- Raw file contents, a sequence of bytes. -/
abbrev Bytes := List Nat

/-- Local filesystem together with the remote-read call counter:
`files` is the association list of regular files (most recent write first),
`dirs` records the directory paths ensured by `mkdir`,
`remoteCalls` counts invocations of the DVC store's `read_bytes`. -/
structure DiskState where
  files : List (String × Bytes)
  dirs : List String
  remoteCalls : Nat
  deriving Repr, DecidableEq

/-- Contents of the regular file at path `p`, if one exists. -/
def lookupFile (s : DiskState) (p : String) : Option Bytes :=
  (s.files.find? (fun e => e.1 = p)).map (fun e => e.2)

/-- Model of `Path.is_file` / `os.path.isfile`. -/
def isFile (s : DiskState) (p : String) : Bool :=
  (lookupFile s p).isSome

/-- Model of `local_path.parent` / `os.path.dirname`: drop the last
`/`-separated component. -/
def parentDir (p : String) : String :=
  String.intercalate "/" (p.splitOn "/").dropLast

/-- The opaque raster codec wrapped by both variants: `decode` models
`rasterio.open` + `src.read` (+ `src.profile`), returning the band array
and the format profile, or failing; `encode` models writing an array under
a profile back to bytes. -/
structure Codec (Img Prof : Type) where
  decode : Bytes → Option (Img × Prof)
  encode : Img → Prof → Bytes

/-- Errors raised during single-file resolution. -/
inductive LoadError where
  /-- `RuntimeError(f"File not accessible: {local_path}")` in
  `FloodDatasetGenerator._load_image`; carries the missing local path. -/
  | notAccessible (path : String)
  /-- failure of the remote store's `read_bytes`; carries the DVC path. -/
  | remoteFetch (path : String)
  /-- failure of `rasterio.open` / `src.read` on the given bytes. -/
  | decodeFail
  deriving Repr, DecidableEq

/-- Local path `context / image_dir / image_name`: both
`pathlib`'s `/` operator and `os.path.join` produce this string for the
repository's directory constants, which end in `"/"`. -/
def localPathOf (context imageDir imageName : String) : String :=
  context ++ "/" ++ imageDir ++ imageName

/-- Remote path: `Path("/", image_dir, image_name)` in `dataset.py` and
`"/" + input_path + image_name` in `sen1floods11_dataset.py` denote the
same string. -/
def dvcPathOf (imageDir imageName : String) : String :=
  "/" ++ imageDir ++ imageName

/-- Bump the `read_bytes` call counter. -/
def bumpRemote (s : DiskState) : DiskState :=
  { s with remoteCalls := s.remoteCalls + 1 }

/-- Write a regular file (association list, newest entry first). -/
def writeFile (s : DiskState) (p : String) (b : Bytes) : DiskState :=
  { s with files := (p, b) :: s.files }

/-- Model of `path.mkdir(parents=True, exist_ok=True)` /
`os.makedirs(path, exist_ok=True)`. -/
def makeDirs (s : DiskState) (p : String) : DiskState :=
  { s with dirs := p :: s.dirs }

namespace FloodDatasetGenerator

/-- The `S1` logical directory constant of `FloodDatasetGenerator`
(identical to the module constant of `sen1floods11_dataset.py`). -/
def S1 : String := "v1.1/data/flood_events/HandLabeled/S1Hand/"

/-- The `LABELS` logical directory constant of `FloodDatasetGenerator`
(identical to the module constant of `sen1floods11_dataset.py`). -/
def LABELS : String := "v1.1/data/flood_events/HandLabeled/LabelHand/"

/-- Model of `FloodDatasetGenerator._load_image` (`dataset.py`):
if `context/image_dir/image_name` is a local file, decode it; else if
`stream`, call `read_bytes` on the DVC path, decode the fetched bytes and,
when `stream_cache`, create the parent directories and write the raw
fetched bytes (`image_stream.getbuffer()`) to the local path; else raise
`RuntimeError` naming the local path. -/
def loadImage {Img Prof : Type} (codec : Codec Img Prof)
    (remote : String → Option Bytes) (context : String)
    (image_dir image_name : String) (stream stream_cache : Bool)
    (s : DiskState) : DiskState × Except LoadError Img :=
  let local_path := localPathOf context image_dir image_name
  match lookupFile s local_path with
  | some b =>
    match codec.decode b with
    | some (image, _) => (s, .ok image)
    | none => (s, .error .decodeFail)
  | none =>
    if stream then
      let dvc_path := dvcPathOf image_dir image_name
      let s1 := bumpRemote s
      match remote dvc_path with
      | none => (s1, .error (.remoteFetch dvc_path))
      | some binary_image =>
        match codec.decode binary_image with
        | none => (s1, .error .decodeFail)
        | some (image, _) =>
          if stream_cache then
            (writeFile (makeDirs s1 (parentDir local_path)) local_path
              binary_image, .ok image)
          else (s1, .ok image)
    else (s, .error (.notAccessible local_path))

end FloodDatasetGenerator

namespace Sen1floods11Dataset

/-- Model of `Sen1floods11Dataset.load_input` (`sen1floods11_dataset.py`):
if `no_cache`, fetch from the DVC store and decode in memory; else if the
local path is not a file (and not `no_cache`), create the parent
directories, fetch, decode, and write the decoded image re-encoded under
the original profile to the local path; else decode the local file. -/
def load_input {Img Prof : Type} (codec : Codec Img Prof)
    (remote : String → Option Bytes) (context : String)
    (input_path image_name : String) (no_cache : Bool)
    (s : DiskState) : DiskState × Except LoadError Img :=
  let local_path := localPathOf context input_path image_name
  let dvc_path := dvcPathOf input_path image_name
  if no_cache then
    let s1 := bumpRemote s
    match remote dvc_path with
    | none => (s1, .error (.remoteFetch dvc_path))
    | some binary_image =>
      match codec.decode binary_image with
      | none => (s1, .error .decodeFail)
      | some (image, _) => (s1, .ok image)
  else if !isFile s local_path && !no_cache then
    let s1 := bumpRemote (makeDirs s (parentDir local_path))
    match remote dvc_path with
    | none => (s1, .error (.remoteFetch dvc_path))
    | some binary_image =>
      match codec.decode binary_image with
      | none => (s1, .error .decodeFail)
      | some (image, profile) =>
        (writeFile s1 local_path (codec.encode image profile), .ok image)
  else
    match lookupFile s local_path with
    | none => (s, .error .decodeFail)
    | some b =>
      match codec.decode b with
      | none => (s, .error .decodeFail)
      | some (image, _) => (s, .ok image)

end Sen1floods11Dataset

/-- Errors raised while iterating a split's generator. -/
inductive GenError where
  /-- `IndexError` from `row[0]` / `row[1]` on a too-short csv row. -/
  | indexError
  /-- `ValueError` from unpacking `line.strip().split(",")` into exactly
  two names in `_generate_examples`. -/
  | unpackError
  /-- a propagated file-resolution error. -/
  | load (e : LoadError)
  deriving Repr, DecidableEq

/-- The dict `{"image": ..., "mask": ...}` yielded by
`FloodDatasetGenerator.__call__`. -/
structure RawExample (Img : Type) where
  image : Img
  mask : Img
  deriving Repr, DecidableEq

namespace FloodDatasetGenerator

/-- Model of `FloodDatasetGenerator.__len__`: the number of rows the csv
reader produces from the split's manifest (the manifest is modelled as its
parsed row list, each row the list of its comma-separated fields). -/
def lenRows (rows : List (List String)) : Nat :=
  rows.length

/-- Model of (non-shuffled) `FloodDatasetGenerator.__call__`
(`dataset.py`): for each csv row, build the dict with the image loaded
from `S1`/`row[0]` and the mask from `LABELS`/`row[1]` and yield it.
Returns the final disk state, the examples yielded before any exception,
and the exception, if one propagated (which ends the iteration). -/
def call {Img Prof : Type} (codec : Codec Img Prof)
    (remote : String → Option Bytes) (context : String)
    (rows : List (List String)) (stream stream_cache : Bool)
    (s : DiskState) :
    DiskState × List (RawExample Img) × Option GenError :=
  match rows with
  | [] => (s, [], none)
  | row :: rest =>
    match row.get? 0 with
    | none => (s, [], some .indexError)
    | some image_name =>
      match loadImage codec remote context S1 image_name stream
          stream_cache s with
      | (s1, .error e) => (s1, [], some (.load e))
      | (s1, .ok image) =>
        match row.get? 1 with
        | none => (s1, [], some .indexError)
        | some mask_name =>
          match loadImage codec remote context LABELS mask_name stream
              stream_cache s1 with
          | (s2, .error e) => (s2, [], some (.load e))
          | (s2, .ok mask) =>
            let r := call codec remote context rest stream stream_cache s2
            (r.1, ⟨image, mask⟩ :: r.2.1, r.2.2)

end FloodDatasetGenerator

namespace DatasetLoader

/-- The fixed `SPLITS` table of `DatasetLoader`. -/
def SPLITS : List (String × String) :=
  [("train", "train_data.csv"), ("validation", "valid_data.csv"),
   ("test", "test_data.csv"), ("sample", "sample_data.csv")]

/-- Model of `dict.get(key, default)` on the `SPLITS` table. -/
def splitsGet (key default : String) : String :=
  ((SPLITS.find? (fun e => e.1 = key)).map (fun e => e.2)).getD default

/-- The `FloodDatasetGenerator(context=..., split=...)` handle built by
`DatasetLoader.__getitem__`. -/
structure GenHandle where
  context : String
  split : String
  deriving Repr, DecidableEq

/-- Model of `DatasetLoader.__getitem__`: a total function — the split
manifest filename is `SPLITS.get(key, key)`, so an unknown key falls back
to the key itself and no `KeyError` is raised. -/
def getItem (context key : String) : GenHandle :=
  { context := context, split := splitsGet key key }

end DatasetLoader

/-- An element of a numpy floating-point array: a finite value (modelled
exactly as a rational) or one of the non-finite IEEE values. -/
inductive NpFloat where
  | finite (q : ℚ)
  | nan
  | posInf
  | negInf
  deriving Repr, DecidableEq

/-- The largest finite IEEE double, `(2 - 2^-52) * 2^1023`, which
`np.nan_to_num` substitutes for `+inf` (and its negation for `-inf`). -/
def floatMax : ℚ := (2 ^ 53 - 1) * 2 ^ 971

/-- Elementwise behaviour of `np.nan_to_num` with default arguments:
`nan ↦ 0`, `+inf ↦ largest finite`, `-inf ↦ lowest finite`, finite values
unchanged. -/
def nanToNumElem : NpFloat → ℚ
  | .finite q => q
  | .nan => 0
  | .posInf => floatMax
  | .negInf => -floatMax

/-- Model of `np.nan_to_num` on a (flattened) array. -/
def npNanToNum (xs : List NpFloat) : List ℚ :=
  xs.map nanToNumElem

/-- Model of `np.clip(xs, lo, hi)` for `lo ≤ hi`. -/
def npClip (lo hi : ℚ) (xs : List ℚ) : List ℚ :=
  xs.map (fun x => max lo (min hi x))

/-- Model of Python's `str.strip()`: remove leading and trailing
whitespace from the character sequence. -/
def pyStrip (cs : List Char) : List Char :=
  ((cs.dropWhile Char.isWhitespace).reverse.dropWhile
    Char.isWhitespace).reverse

/-- Model of Python's `str.split(sep)` for a one-character separator:
the maximal runs between separator occurrences, so that splitting the
empty sequence yields `[[]]` (Python: `"".split(",") == [""]`) and every
separator occurrence contributes a boundary. -/
def pySplit (sep : Char) : List Char → List (List Char)
  | [] => [[]]
  | c :: cs =>
    let r := pySplit sep cs
    if c = sep then [] :: r
    else (c :: r.headD []) :: r.tail

namespace Sen1floods11Dataset

/-- Model of `Sen1floods11Dataset.process_image`:
`np.nan_to_num`, then `np.clip(image, -50, 1)`, then `(image + 50) / 51`,
elementwise on the flattened array. -/
def process_image (image : List NpFloat) : List ℚ :=
  let image1 := npNanToNum image
  let image2 := npClip (-50) 1 image1
  image2.map (fun x => (x + 50) / 51)

/-- Model of the boolean index array `mask == -1`. -/
def npEqNeg1 (mask : List Int) : List Bool :=
  mask.map (fun v => v == -1)

/-- Model of the masked in-place assignment `mask[b] = v`: the value of
the output array where the boolean array is true, the input elsewhere. -/
def npMaskedFill (mask : List Int) (b : List Bool) (v : Int) : List Int :=
  List.zipWith (fun x sel => if sel then v else x) mask b

/-- Model of `Sen1floods11Dataset.process_mask` as a value transformation:
`mask[mask == -1] = 255; return mask`.  (Its in-place character is
modelled separately by `process_mask_ref`.) -/
def process_mask (mask : List Int) : List Int :=
  npMaskedFill mask (npEqNeg1 mask) 255

/-- The dict `{"image": ..., "mask": ...}` yielded (with its index) by
`Sen1floods11Dataset._generate_examples`. -/
structure Example (A B : Type) where
  image : A
  mask : B
  deriving Repr, DecidableEq

/-- Model of `Sen1floods11Dataset._generate_examples`
(`sen1floods11_dataset.py`): for each manifest line, strip it and split on
`","`, unpack into exactly two names (else `ValueError`), load and process
the image from `S1` and the mask from `LABELS`, and yield
`(idx, {"image": ..., "mask": ...})`.  The processing methods
`process_image` / `process_mask` are passed as the functions `procImage` /
`procMask` (the arrays' element types being opaque at this point).
Python's `line.strip().split(",")` is modelled by
`pySplit ',' (pyStrip line.data)`.  Returns the final disk state, the
yielded examples, and the propagated exception, if any. -/
def generate_examples {Img Prof A B : Type} (codec : Codec Img Prof)
    (remote : String → Option Bytes) (context : String) (no_cache : Bool)
    (procImage : Img → A) (procMask : Img → B)
    (lines : List String) (idx : Nat) (s : DiskState) :
    DiskState × List (Nat × Example A B) × Option GenError :=
  match lines with
  | [] => (s, [], none)
  | line :: rest =>
    match pySplit ',' (pyStrip line.data) with
    | [image_name, mask_name] =>
      match load_input codec remote context FloodDatasetGenerator.S1
          (String.mk image_name) no_cache s with
      | (s1, .error e) => (s1, [], some (.load e))
      | (s1, .ok image) =>
        match load_input codec remote context
            FloodDatasetGenerator.LABELS (String.mk mask_name) no_cache
            s1 with
        | (s2, .error e) => (s2, [], some (.load e))
        | (s2, .ok mask) =>
          let r := generate_examples codec remote context no_cache
            procImage procMask rest (idx + 1) s2
          (r.1, (idx, ⟨procImage image, procMask mask⟩) :: r.2.1, r.2.2)
    | _ => (s, [], some .unpackError)

/-- Heap of numpy arrays, for stating aliasing/mutation properties: an
array object is an index into the heap. -/
abbrev Heap (α : Type) := List (List α)

/-- Model of `process_mask` at the object level: the masked assignment
`mask[mask == -1] = 255` mutates the array in place (the heap cell at the
argument reference is overwritten), and `return mask` returns the very
same reference. -/
def process_mask_ref (h : Heap Int) (r : Nat) : Heap Int × Nat :=
  (h.set r (process_mask (h.getD r [])), r)

/-- Model of `process_image` at the object level: `np.nan_to_num`,
`np.clip` and the arithmetic each allocate fresh arrays and the local name
`image` is rebound, so the heap cell of the argument is untouched and a
freshly allocated array (appended to the heap) is returned. -/
def process_image_ref (h : Heap NpFloat) (r : Nat) : Heap NpFloat × Nat :=
  (h ++ [(process_image (h.getD r [])).map NpFloat.finite], h.length)

end Sen1floods11Dataset

/-- A concrete codec on `Img = Prof = ℕ` used to instantiate theorems with
hypotheses: decoding yields the byte count, encoding a count yields that
many zero bytes (so decode ∘ encode recovers the count). -/
def testCodec : Codec Nat Nat :=
  ⟨fun b => some (b.length, 0), fun image _ => List.replicate image 0⟩

/-- A concrete remote store answering every path with the two bytes
`[1, 2]`. -/
def testRemote : String → Option Bytes := fun _ => some [1, 2]

/-- The empty local filesystem with no remote calls recorded. -/
def emptyDisk : DiskState := ⟨[], [], 0⟩

/-- A freshly written file is found at its path. -/
theorem lookupFile_writeFile_self (s : DiskState) (p : String) (b : Bytes) :
    lookupFile (writeFile s p b) p = some b := by
  simp [lookupFile, writeFile, List.find?]

/-- Ensuring directories does not change file lookup. -/
theorem lookupFile_makeDirs (s : DiskState) (d p : String) :
    lookupFile (makeDirs s d) p = lookupFile s p := rfl

/-- Counting a remote call does not change file lookup. -/
theorem lookupFile_bumpRemote (s : DiskState) (p : String) :
    lookupFile (bumpRemote s) p = lookupFile s p := rfl

/-! ## Claim C5: missing file with remote fetch disallowed -/

/-- C5.  If the local cache path does not exist and `stream` is false,
`_load_image` raises the not-accessible error whose payload is exactly the
missing local path, for either value of `stream_cache`, and the disk state
is returned unchanged: no file is written, no directory is created, and no
remote `read_bytes` call is made. -/
theorem C5_not_accessible {Img Prof : Type} (codec : Codec Img Prof)
    (remote : String → Option Bytes) (context image_dir image_name : String)
    (stream_cache : Bool) (s : DiskState)
    (h : lookupFile s (localPathOf context image_dir image_name) = none) :
    FloodDatasetGenerator.loadImage codec remote context image_dir
      image_name false stream_cache s =
    (s, .error (.notAccessible (localPathOf context image_dir image_name)))
    := by
  unfold FloodDatasetGenerator.loadImage
  simp [h]

/-- Witness for C5 at a concrete empty disk state. -/
theorem C5_not_accessible_witness :
    FloodDatasetGenerator.loadImage ⟨fun b => some (b.length, 0),
        fun _ _ => []⟩ (fun _ => some [1]) "ctx" "d/" "f" false true
      ⟨[], [], 0⟩ =
    (⟨[], [], 0⟩, .error (.notAccessible (localPathOf "ctx" "d/" "f"))) :=
  C5_not_accessible ⟨fun b => some (b.length, 0), fun _ _ => []⟩
    (fun _ => some [1]) "ctx" "d/" "f" true ⟨[], [], 0⟩ (by decide)

/-! ## Claim C8: mask sentinel remapping -/

/-- C8.  `process_mask` replaces every element equal to `-1` with `255`
and leaves every other element unchanged (and in particular preserves the
array's length, the out-of-range indices agreeing as `none`). -/
theorem C8_mask_remap (mask : List Int) (i : Nat) :
    (Sen1floods11Dataset.process_mask mask).get? i =
      (mask.get? i).map (fun v => if v = -1 then (255 : Int) else v) := by
  induction mask generalizing i with
  | nil => simp [Sen1floods11Dataset.process_mask,
      Sen1floods11Dataset.npMaskedFill, Sen1floods11Dataset.npEqNeg1]
  | cons x xs ih =>
    cases i with
    | zero =>
      simp [Sen1floods11Dataset.process_mask,
        Sen1floods11Dataset.npMaskedFill, Sen1floods11Dataset.npEqNeg1]
    | succ j =>
      have := ih j
      simpa [Sen1floods11Dataset.process_mask,
        Sen1floods11Dataset.npMaskedFill,
        Sen1floods11Dataset.npEqNeg1] using this

/-! ## Claim C9: unknown split keys are not rejected -/

/-- C9.  For a key absent from the fixed `SPLITS` table,
`DatasetLoader.__getitem__` does not raise a `KeyError`: it is total and
returns a generator handle whose manifest filename is the key itself. -/
theorem C9_unknown_split_falls_through (context key : String)
    (h : key ∉ DatasetLoader.SPLITS.map Prod.fst) :
    DatasetLoader.getItem context key =
      { context := context, split := key } := by
  simp only [DatasetLoader.SPLITS, List.map, List.mem_cons,
    List.not_mem_nil, or_false, not_or] at h
  obtain ⟨h1, h2, h3, h4⟩ := h
  simp [DatasetLoader.getItem, DatasetLoader.splitsGet,
    DatasetLoader.SPLITS, List.find?, Ne.symm h1, Ne.symm h2, Ne.symm h3,
    Ne.symm h4]

/-- Witness for C9 at the concrete key `"dev"`. -/
theorem C9_unknown_split_falls_through_witness :
    DatasetLoader.getItem "ctx" "dev" =
      { context := "ctx", split := "dev" } :=
  C9_unknown_split_falls_through "ctx" "dev" (by decide)

/-! ## Claim C2: image normalization -/

/-- C2, counterexample.  The claim that every non-finite value yields
`50/51` is false: `np.nan_to_num` substitutes the largest finite float
(not `0`) for `+inf`, so a `+inf` element normalizes to `1`, and a `-inf`
element to `0`. -/
theorem C2_counterexample :
    Sen1floods11Dataset.process_image [.posInf] = [1] ∧
    Sen1floods11Dataset.process_image [.negInf] = [0] ∧
    (1 : ℚ) ≠ 50 / 51 := by
  refine ⟨?_, ?_, by norm_num⟩ <;>
    simp [Sen1floods11Dataset.process_image, npClip, npNanToNum,
      nanToNumElem, floatMax] <;> norm_num [min_eq_right, max_eq_left]

/-- C2, amended.  `-100 ↦ 0`, `10 ↦ 1`, `NaN ↦ 50/51`, but the infinities
are first replaced by the largest/lowest finite float, so `+inf ↦ 1` and
`-inf ↦ 0`; in general each element is replaced by `0` only when `NaN`
(by `±floatMax` when `±inf`), clipped to `[-50, 1]`, then mapped through
`(clipped + 50) / 51`. -/
theorem C2_normalization_amended :
    Sen1floods11Dataset.process_image
        [.finite (-100), .finite 10, .nan, .posInf, .negInf] =
      [0, 1, 50 / 51, 1, 0] ∧
    ∀ (xs : List NpFloat) (i : Nat),
      (Sen1floods11Dataset.process_image xs).get? i =
        (xs.get? i).map
          (fun x => (max (-50) (min 1 (nanToNumElem x)) + 50) / 51) := by
  constructor
  · simp [Sen1floods11Dataset.process_image, npClip, npNanToNum,
      nanToNumElem, floatMax]
    norm_num
  · intro xs i
    simp [Sen1floods11Dataset.process_image, npClip, npNanToNum,
      List.get?_map, Option.map_map, Function.comp_def]

/-! ## Claim C10: mask processing is in place, image processing is not -/

/-- C10.  At the object level, `process_mask` returns the very same array
reference it was given and overwrites that array in place with the
remapped values, while `process_image` returns a freshly allocated
reference (distinct from its argument) and leaves the argument array's
contents unchanged. -/
theorem C10_mask_inplace_image_fresh :
    (∀ (h : Sen1floods11Dataset.Heap Int) (r : Nat),
      (Sen1floods11Dataset.process_mask_ref h r).2 = r ∧
      (r < h.length →
        (Sen1floods11Dataset.process_mask_ref h r).1.getD r [] =
          Sen1floods11Dataset.process_mask (h.getD r []))) ∧
    (∀ (h : Sen1floods11Dataset.Heap NpFloat) (r : Nat), r < h.length →
      (Sen1floods11Dataset.process_image_ref h r).2 ≠ r ∧
      (Sen1floods11Dataset.process_image_ref h r).1.getD r [] =
        h.getD r []) := by
  refine ⟨fun h r => ⟨rfl, fun hr => ?_⟩, fun h r hr => ⟨?_, ?_⟩⟩
  · simp [Sen1floods11Dataset.process_mask_ref, List.getD,
      List.getElem?_set_eq_of_lt _ hr]
  · exact fun e => absurd (e ▸ hr) (lt_irrefl r)
  · simp [Sen1floods11Dataset.process_image_ref, List.getD,
      List.getElem?_append_left hr]

/-- Witness for C10 on a one-element heap. -/
theorem C10_mask_inplace_image_fresh_witness :
    ((Sen1floods11Dataset.process_mask_ref [[-1, 7]] 0).2 = 0 ∧
      (Sen1floods11Dataset.process_mask_ref [[-1, 7]] 0).1.getD 0 [] =
        Sen1floods11Dataset.process_mask
          (([[-1, 7]] : Sen1floods11Dataset.Heap Int).getD 0 [])) ∧
    ((Sen1floods11Dataset.process_image_ref [[NpFloat.nan]] 0).2 ≠ 0 ∧
      (Sen1floods11Dataset.process_image_ref [[NpFloat.nan]] 0).1.getD 0 []
        = [[NpFloat.nan]].getD 0 []) :=
  ⟨⟨(C10_mask_inplace_image_fresh.1 [[-1, 7]] 0).1,
    (C10_mask_inplace_image_fresh.1 [[-1, 7]] 0).2 (by decide)⟩,
   ⟨(C10_mask_inplace_image_fresh.2 [[NpFloat.nan]] 0 (by decide)).1,
    (C10_mask_inplace_image_fresh.2 [[NpFloat.nan]] 0 (by decide)).2⟩⟩

/-! ## Claim C1: local-cache precedence -/

/-- C1, counterexample.  In the framework variant with `no_cache = true`,
a file that exists locally is nonetheless fetched from the remote store:
starting from a disk holding the one-byte local file, `load_input`
increments the remote call counter and returns the image decoded from the
two remote bytes (count `2`), not from the local byte (count `1`). -/
theorem C1_counterexample :
    DiskState.remoteCalls
      (Sen1floods11Dataset.load_input testCodec testRemote "ctx"
        FloodDatasetGenerator.S1 "a" true
        ⟨[(localPathOf "ctx" FloodDatasetGenerator.S1 "a", [9])], [],
          0⟩).1 = 1 ∧
    (Sen1floods11Dataset.load_input testCodec testRemote "ctx"
        FloodDatasetGenerator.S1 "a" true
        ⟨[(localPathOf "ctx" FloodDatasetGenerator.S1 "a", [9])], [], 0⟩).2
      = .ok 2 ∧
    isFile ⟨[(localPathOf "ctx" FloodDatasetGenerator.S1 "a", [9])], [], 0⟩
        (localPathOf "ctx" FloodDatasetGenerator.S1 "a") = true ∧
    testCodec.decode [9] = some (1, 0) ∧ (1 : Nat) ≠ 2 := by
  refine ⟨rfl, rfl, rfl, rfl, by decide⟩

/-- C1, amended.  If the local cache path exists (and decodes), resolution
returns the locally decoded image with the disk state unchanged — hence no
remote `read_bytes` call — in the standalone variant for every
`stream`/`stream_cache` combination, and in the framework variant when
`no_cache` is false.  (With `no_cache = true` the framework variant always
fetches remotely, even when the local file exists.) -/
theorem C1_local_precedence_amended {Img Prof : Type}
    (codec : Codec Img Prof) (remote : String → Option Bytes)
    (context image_dir image_name : String) (s : DiskState) (b : Bytes)
    (image : Img) (profile : Prof)
    (hloc : lookupFile s (localPathOf context image_dir image_name) =
      some b)
    (hdec : codec.decode b = some (image, profile)) :
    (∀ stream stream_cache,
      FloodDatasetGenerator.loadImage codec remote context image_dir
        image_name stream stream_cache s = (s, .ok image)) ∧
    Sen1floods11Dataset.load_input codec remote context image_dir
      image_name false s = (s, .ok image) := by
  constructor
  · intro stream stream_cache
    unfold FloodDatasetGenerator.loadImage
    simp [hloc, hdec]
  · unfold Sen1floods11Dataset.load_input
    simp [isFile, hloc, hdec]

/-- Witness for C1 (amended) on a disk holding one concrete local file. -/
theorem C1_local_precedence_amended_witness :
    (∀ stream stream_cache,
      FloodDatasetGenerator.loadImage testCodec testRemote "ctx" "d/" "f"
        stream stream_cache ⟨[(localPathOf "ctx" "d/" "f", [9])], [], 0⟩ =
      (⟨[(localPathOf "ctx" "d/" "f", [9])], [], 0⟩, .ok 1)) ∧
    Sen1floods11Dataset.load_input testCodec testRemote "ctx" "d/" "f"
      false ⟨[(localPathOf "ctx" "d/" "f", [9])], [], 0⟩ =
    (⟨[(localPathOf "ctx" "d/" "f", [9])], [], 0⟩, .ok 1) :=
  C1_local_precedence_amended testCodec testRemote "ctx" "d/" "f"
    ⟨[(localPathOf "ctx" "d/" "f", [9])], [], 0⟩ [9] 1 0
    (by simp [lookupFile, List.find?]) rfl

/-! ## Claim C4: caching is idempotent -/

/-- C4.  Resolving an uncached file twice in sequence with remote fetch
allowed and caching enabled performs exactly one remote `read_bytes`
call: after the first resolution the call counter has increased by one,
and the second resolution returns the very same disk state (reading only
the local cache, making no further remote call and no further write) —
in the standalone variant (`stream = true`, `stream_cache = true`, whose
cache holds the raw bytes, re-decoded to the same image) and in the
framework variant (`no_cache = false`, whose cache holds the re-encoded
image, decoding to whatever the codec round-trips to). -/
theorem C4_cache_idempotent {Img Prof : Type} (codec : Codec Img Prof)
    (remote : String → Option Bytes) (context image_dir image_name : String)
    (s : DiskState) (b : Bytes) (image image2 : Img)
    (profile profile2 : Prof)
    (hmiss : lookupFile s (localPathOf context image_dir image_name) = none)
    (hrem : remote (dvcPathOf image_dir image_name) = some b)
    (hdec : codec.decode b = some (image, profile))
    (hrt : codec.decode (codec.encode image profile) =
      some (image2, profile2)) :
    (let r1 := FloodDatasetGenerator.loadImage codec remote context
        image_dir image_name true true s
     r1.2 = .ok image ∧ r1.1.remoteCalls = s.remoteCalls + 1 ∧
     FloodDatasetGenerator.loadImage codec remote context image_dir
       image_name true true r1.1 = (r1.1, .ok image)) ∧
    (let t1 := Sen1floods11Dataset.load_input codec remote context
        image_dir image_name false s
     t1.2 = .ok image ∧ t1.1.remoteCalls = s.remoteCalls + 1 ∧
     Sen1floods11Dataset.load_input codec remote context image_dir
       image_name false t1.1 = (t1.1, .ok image2)) := by
  constructor
  · have h1 : FloodDatasetGenerator.loadImage codec remote context
        image_dir image_name true true s =
        (writeFile (makeDirs (bumpRemote s)
            (parentDir (localPathOf context image_dir image_name)))
          (localPathOf context image_dir image_name) b, .ok image) := by
      unfold FloodDatasetGenerator.loadImage
      simp [hmiss, hrem, hdec]
    have h2 : lookupFile (writeFile (makeDirs (bumpRemote s)
          (parentDir (localPathOf context image_dir image_name)))
        (localPathOf context image_dir image_name) b)
        (localPathOf context image_dir image_name) = some b :=
      lookupFile_writeFile_self ..
    refine ⟨by simp [h1], by simp [h1, writeFile, makeDirs, bumpRemote],
      ?_⟩
    simp only [h1]
    unfold FloodDatasetGenerator.loadImage
    simp [h2, hdec]
  · have h1 : Sen1floods11Dataset.load_input codec remote context
        image_dir image_name false s =
        (writeFile (bumpRemote (makeDirs s
            (parentDir (localPathOf context image_dir image_name))))
          (localPathOf context image_dir image_name)
          (codec.encode image profile), .ok image) := by
      unfold Sen1floods11Dataset.load_input
      simp [isFile, hmiss, hrem, hdec]
    have h2 : lookupFile (writeFile (bumpRemote (makeDirs s
          (parentDir (localPathOf context image_dir image_name))))
        (localPathOf context image_dir image_name)
        (codec.encode image profile))
        (localPathOf context image_dir image_name) =
        some (codec.encode image profile) :=
      lookupFile_writeFile_self ..
    refine ⟨by simp [h1], by simp [h1, writeFile, makeDirs, bumpRemote],
      ?_⟩
    simp only [h1]
    unfold Sen1floods11Dataset.load_input
    simp [isFile, h2, hrt]

/-- Witness for C4 starting from the empty disk. -/
theorem C4_cache_idempotent_witness :
    (let r1 := FloodDatasetGenerator.loadImage testCodec testRemote "ctx"
        "d/" "f" true true emptyDisk
     r1.2 = .ok 2 ∧ r1.1.remoteCalls = emptyDisk.remoteCalls + 1 ∧
     FloodDatasetGenerator.loadImage testCodec testRemote "ctx" "d/" "f"
       true true r1.1 = (r1.1, .ok 2)) ∧
    (let t1 := Sen1floods11Dataset.load_input testCodec testRemote "ctx"
        "d/" "f" false emptyDisk
     t1.2 = .ok 2 ∧ t1.1.remoteCalls = emptyDisk.remoteCalls + 1 ∧
     Sen1floods11Dataset.load_input testCodec testRemote "ctx" "d/" "f"
       false t1.1 = (t1.1, .ok 2)) :=
  C4_cache_idempotent testCodec testRemote "ctx" "d/" "f" emptyDisk
    [1, 2] 2 2 0 0 rfl rfl rfl rfl

/-! ## Claim C7: what each variant writes to the cache -/

/-- C7.  On a remote fetch with caching enabled, the framework variant
(`no_cache = false`) stores at the local cache path the decoded image
re-encoded under its original format profile, while the standalone
variant (`stream = true`, `stream_cache = true`) stores exactly the raw
bytes returned by the remote store; both record the creation of the local
path's parent directories. -/
theorem C7_cache_write_content {Img Prof : Type} (codec : Codec Img Prof)
    (remote : String → Option Bytes) (context image_dir image_name : String)
    (s : DiskState) (b : Bytes) (image : Img) (profile : Prof)
    (hmiss : lookupFile s (localPathOf context image_dir image_name) = none)
    (hrem : remote (dvcPathOf image_dir image_name) = some b)
    (hdec : codec.decode b = some (image, profile)) :
    (let t := Sen1floods11Dataset.load_input codec remote context
        image_dir image_name false s
     t.2 = .ok image ∧
     lookupFile t.1 (localPathOf context image_dir image_name) =
       some (codec.encode image profile) ∧
     parentDir (localPathOf context image_dir image_name) ∈ t.1.dirs) ∧
    (let r := FloodDatasetGenerator.loadImage codec remote context
        image_dir image_name true true s
     r.2 = .ok image ∧
     lookupFile r.1 (localPathOf context image_dir image_name) = some b ∧
     parentDir (localPathOf context image_dir image_name) ∈ r.1.dirs) := by
  constructor
  · have h1 : Sen1floods11Dataset.load_input codec remote context
        image_dir image_name false s =
        (writeFile (bumpRemote (makeDirs s
            (parentDir (localPathOf context image_dir image_name))))
          (localPathOf context image_dir image_name)
          (codec.encode image profile), .ok image) := by
      unfold Sen1floods11Dataset.load_input
      simp [isFile, hmiss, hrem, hdec]
    refine ⟨by simp [h1], ?_, ?_⟩
    · simp only [h1]
      exact lookupFile_writeFile_self ..
    · simp [h1, writeFile, bumpRemote, makeDirs]
  · have h1 : FloodDatasetGenerator.loadImage codec remote context
        image_dir image_name true true s =
        (writeFile (makeDirs (bumpRemote s)
            (parentDir (localPathOf context image_dir image_name)))
          (localPathOf context image_dir image_name) b, .ok image) := by
      unfold FloodDatasetGenerator.loadImage
      simp [hmiss, hrem, hdec]
    refine ⟨by simp [h1], ?_, ?_⟩
    · simp only [h1]
      exact lookupFile_writeFile_self ..
    · simp [h1, writeFile, bumpRemote, makeDirs]

/-- Witness for C7 starting from the empty disk. -/
theorem C7_cache_write_content_witness :
    (let t := Sen1floods11Dataset.load_input testCodec testRemote "ctx"
        "d/" "f" false emptyDisk
     t.2 = .ok 2 ∧
     lookupFile t.1 (localPathOf "ctx" "d/" "f") =
       some (testCodec.encode 2 0) ∧
     parentDir (localPathOf "ctx" "d/" "f") ∈ t.1.dirs) ∧
    (let r := FloodDatasetGenerator.loadImage testCodec testRemote "ctx"
        "d/" "f" true true emptyDisk
     r.2 = .ok 2 ∧
     lookupFile r.1 (localPathOf "ctx" "d/" "f") = some [1, 2] ∧
     parentDir (localPathOf "ctx" "d/" "f") ∈ r.1.dirs) :=
  C7_cache_write_content testCodec testRemote "ctx" "d/" "f" emptyDisk
    [1, 2] 2 0 rfl rfl rfl

/-! ## Generator lemmas shared by claims C3 and C6 -/

/-- Under a total codec and a total remote store, `_load_image` with
`stream = true` always succeeds. -/
theorem loadImage_ok {Img Prof : Type} (codec : Codec Img Prof)
    (remote : String → Option Bytes)
    (hdec : ∀ b, (codec.decode b).isSome) (hrem : ∀ p, (remote p).isSome)
    (context image_dir image_name : String) (stream_cache : Bool)
    (s : DiskState) :
    ∃ s1 image, FloodDatasetGenerator.loadImage codec remote context
      image_dir image_name true stream_cache s = (s1, .ok image) := by
  cases hl : lookupFile s (localPathOf context image_dir image_name) with
  | some b =>
    cases hd : codec.decode b with
    | none => exact absurd (hdec b) (by simp [hd])
    | some ip =>
      obtain ⟨image, profile⟩ := ip
      refine ⟨s, image, ?_⟩
      unfold FloodDatasetGenerator.loadImage
      simp [hl, hd]
  | none =>
    cases hr : remote (dvcPathOf image_dir image_name) with
    | none =>
      exact absurd (hrem (dvcPathOf image_dir image_name)) (by simp [hr])
    | some bi =>
      cases hd : codec.decode bi with
      | none => exact absurd (hdec bi) (by simp [hd])
      | some ip =>
        obtain ⟨image, profile⟩ := ip
        cases stream_cache with
        | true =>
          refine ⟨writeFile (makeDirs (bumpRemote s)
            (parentDir (localPathOf context image_dir image_name)))
            (localPathOf context image_dir image_name) bi, image, ?_⟩
          unfold FloodDatasetGenerator.loadImage
          simp [hl, hr, hd]
        | false =>
          refine ⟨bumpRemote s, image, ?_⟩
          unfold FloodDatasetGenerator.loadImage
          simp [hl, hr, hd]

/-- Under a total codec and a total remote store, `load_input` always
succeeds, whatever the caching mode. -/
theorem load_input_ok {Img Prof : Type} (codec : Codec Img Prof)
    (remote : String → Option Bytes)
    (hdec : ∀ b, (codec.decode b).isSome) (hrem : ∀ p, (remote p).isSome)
    (context input_path image_name : String) (no_cache : Bool)
    (s : DiskState) :
    ∃ s1 image, Sen1floods11Dataset.load_input codec remote context
      input_path image_name no_cache s = (s1, .ok image) := by
  cases no_cache with
  | true =>
    cases hr : remote (dvcPathOf input_path image_name) with
    | none =>
      exact absurd (hrem (dvcPathOf input_path image_name)) (by simp [hr])
    | some bi =>
      cases hd : codec.decode bi with
      | none => exact absurd (hdec bi) (by simp [hd])
      | some ip =>
        obtain ⟨image, profile⟩ := ip
        refine ⟨bumpRemote s, image, ?_⟩
        unfold Sen1floods11Dataset.load_input
        simp [hr, hd]
  | false =>
    cases hl : lookupFile s (localPathOf context input_path image_name) with
    | some b =>
      cases hd : codec.decode b with
      | none => exact absurd (hdec b) (by simp [hd])
      | some ip =>
        obtain ⟨image, profile⟩ := ip
        refine ⟨s, image, ?_⟩
        unfold Sen1floods11Dataset.load_input
        simp [isFile, hl, hd]
    | none =>
      cases hr : remote (dvcPathOf input_path image_name) with
      | none =>
        exact absurd (hrem (dvcPathOf input_path image_name))
          (by simp [hr])
      | some bi =>
        cases hd : codec.decode bi with
        | none => exact absurd (hdec bi) (by simp [hd])
        | some ip =>
          obtain ⟨image, profile⟩ := ip
          refine ⟨writeFile (bumpRemote (makeDirs s
            (parentDir (localPathOf context input_path image_name))))
            (localPathOf context input_path image_name)
            (codec.encode image profile), image, ?_⟩
          unfold Sen1floods11Dataset.load_input
          simp [isFile, hl, hr, hd]

/-- Iterating `__call__` over a prefix of well-formed rows (two or more
fields each) under a total codec and remote store yields one example per
prefix row and then continues, from some intermediate disk state, as the
iteration of the remaining rows. -/
theorem call_append {Img Prof : Type} (codec : Codec Img Prof)
    (remote : String → Option Bytes)
    (hdec : ∀ b, (codec.decode b).isSome) (hrem : ∀ p, (remote p).isSome)
    (context : String) (stream_cache : Bool)
    (pre rows2 : List (List String))
    (hpre : ∀ r ∈ pre, 2 ≤ r.length) (s : DiskState) :
    ∃ s2,
      (FloodDatasetGenerator.call codec remote context (pre ++ rows2) true
          stream_cache s).2.2 =
        (FloodDatasetGenerator.call codec remote context rows2 true
          stream_cache s2).2.2 ∧
      (FloodDatasetGenerator.call codec remote context (pre ++ rows2) true
          stream_cache s).2.1.length =
        pre.length + (FloodDatasetGenerator.call codec remote context rows2
          true stream_cache s2).2.1.length := by
  induction pre generalizing s with
  | nil => exact ⟨s, rfl, by simp⟩
  | cons row rest ih =>
    rcases row with _ | ⟨a, _ | ⟨b, t⟩⟩
    · exact absurd (hpre [] (List.mem_cons_self ..)) (by simp)
    · exact absurd (hpre [a] (List.mem_cons_self ..)) (by simp)
    obtain ⟨s1, image, h1⟩ := loadImage_ok codec remote hdec hrem context
      FloodDatasetGenerator.S1 a stream_cache s
    obtain ⟨s2, mask, h2⟩ := loadImage_ok codec remote hdec hrem context
      FloodDatasetGenerator.LABELS b stream_cache s1
    obtain ⟨s3, he, hl⟩ := ih (fun r hr => hpre r
      (List.mem_cons_of_mem _ hr)) s2
    refine ⟨s3, ?_, ?_⟩ <;>
      simp only [List.cons_append, FloodDatasetGenerator.call,
        List.get?_cons_zero, List.get?_cons_succ, h1, h2] <;>
      simp [he, hl] <;> omega

/-- A row with fewer than two fields stops `__call__` with the
index-out-of-range error and yields nothing (given a total codec and
remote store, so that the error cannot be masked by a load failure). -/
theorem call_indexError {Img Prof : Type} (codec : Codec Img Prof)
    (remote : String → Option Bytes)
    (hdec : ∀ b, (codec.decode b).isSome) (hrem : ∀ p, (remote p).isSome)
    (context : String) (stream_cache : Bool) (row : List String)
    (hrow : row.length < 2) (rest : List (List String)) (s : DiskState) :
    (FloodDatasetGenerator.call codec remote context (row :: rest) true
        stream_cache s).2.2 = some .indexError ∧
    (FloodDatasetGenerator.call codec remote context (row :: rest) true
        stream_cache s).2.1 = [] := by
  rcases row with _ | ⟨a, _ | ⟨b, t⟩⟩
  · constructor <;> simp [FloodDatasetGenerator.call]
  · obtain ⟨s1, image, h1⟩ := loadImage_ok codec remote hdec hrem context
      FloodDatasetGenerator.S1 a stream_cache s
    constructor <;> simp [FloodDatasetGenerator.call, h1]
  · exact absurd hrow (by simp)

/-- Iterating `_generate_examples` over a prefix of well-formed manifest
lines (stripping and splitting to exactly two fields) under a total codec
and remote store yields one indexed example per prefix line and then
continues, from some intermediate disk state and index, as the iteration
of the remaining lines. -/
theorem generate_append {Img Prof A B : Type} (codec : Codec Img Prof)
    (remote : String → Option Bytes)
    (hdec : ∀ b, (codec.decode b).isSome) (hrem : ∀ p, (remote p).isSome)
    (context : String) (no_cache : Bool)
    (procImage : Img → A) (procMask : Img → B) (pre lines2 : List String)
    (hpre : ∀ l ∈ pre, (pySplit ',' (pyStrip l.data)).length = 2)
    (idx : Nat) (s : DiskState) :
    ∃ s2 idx2,
      (Sen1floods11Dataset.generate_examples codec remote context no_cache
          procImage procMask (pre ++ lines2) idx s).2.2 =
        (Sen1floods11Dataset.generate_examples codec remote context
          no_cache procImage procMask lines2 idx2 s2).2.2 ∧
      (Sen1floods11Dataset.generate_examples codec remote context no_cache
          procImage procMask (pre ++ lines2) idx s).2.1.length =
        pre.length + (Sen1floods11Dataset.generate_examples codec remote
          context no_cache procImage procMask lines2 idx2 s2).2.1.length
          := by
  induction pre generalizing idx s with
  | nil => exact ⟨s, idx, rfl, by simp⟩
  | cons line rest ih =>
    have hsp := hpre line (List.mem_cons_self ..)
    rcases hs : pySplit ',' (pyStrip line.data)
        with _ | ⟨a, _ | ⟨b, _ | ⟨c, t⟩⟩⟩ <;>
      rw [hs] at hsp <;> try simp at hsp
    obtain ⟨s1, image, h1⟩ := load_input_ok codec remote hdec hrem context
      FloodDatasetGenerator.S1 (String.mk a) no_cache s
    obtain ⟨s2, mask, h2⟩ := load_input_ok codec remote hdec hrem context
      FloodDatasetGenerator.LABELS (String.mk b) no_cache s1
    obtain ⟨s3, idx3, he, hl⟩ := ih (fun l hl => hpre l
      (List.mem_cons_of_mem _ hl)) (idx + 1) s2
    refine ⟨s3, idx3, ?_, ?_⟩ <;>
      simp only [List.cons_append, Sen1floods11Dataset.generate_examples,
        hs, h1, h2] <;>
      simp [he, hl] <;> omega

/-- A manifest line that does not split into exactly two comma-separated
fields stops `_generate_examples` immediately with the unpack error,
yielding nothing and leaving the disk state unchanged. -/
theorem generate_unpack {Img Prof A B : Type} (codec : Codec Img Prof)
    (remote : String → Option Bytes) (context : String) (no_cache : Bool)
    (procImage : Img → A) (procMask : Img → B) (line : String)
    (hbad : (pySplit ',' (pyStrip line.data)).length ≠ 2)
    (rest : List String) (idx : Nat) (s : DiskState) :
    Sen1floods11Dataset.generate_examples codec remote context no_cache
      procImage procMask (line :: rest) idx s = (s, [], some .unpackError)
      := by
  rcases hs : pySplit ',' (pyStrip line.data)
      with _ | ⟨a, _ | ⟨b, _ | ⟨c, t⟩⟩⟩
  · unfold Sen1floods11Dataset.generate_examples
    rw [hs]
  · unfold Sen1floods11Dataset.generate_examples
    rw [hs]
  · exact absurd (by rw [hs]; rfl) hbad
  · unfold Sen1floods11Dataset.generate_examples
    rw [hs]

/-! ## Claim C3: malformed manifest rows -/

/-- C3, counterexample.  In the standalone variant a row with three
comma-separated fields does not raise: `row[0]` and `row[1]` both exist,
so the extra field is silently ignored and the row yields an example. -/
theorem C3_counterexample :
    (FloodDatasetGenerator.call testCodec testRemote "ctx"
        [["a", "b", "c"]] true true emptyDisk).2.2 = none ∧
    (FloodDatasetGenerator.call testCodec testRemote "ctx"
        [["a", "b", "c"]] true true emptyDisk).2.1.length = 1 :=
  ⟨rfl, rfl⟩

/-- C3, amended.  A manifest row with fewer than two fields stops the
standalone variant's iteration with an `IndexError` (rows with more than
two fields are accepted, their extra fields ignored), while in the
framework variant any line not splitting into exactly two fields stops
the iteration with a `ValueError`; in both cases the rows before the
malformed one each yield their example and nothing is yielded from the
malformed row onward. -/
theorem C3_malformed_row_amended {Img Prof A B : Type}
    (codec : Codec Img Prof) (remote : String → Option Bytes)
    (hdec : ∀ b, (codec.decode b).isSome) (hrem : ∀ p, (remote p).isSome)
    (context : String) (stream_cache no_cache : Bool)
    (procImage : Img → A) (procMask : Img → B)
    (pre : List (List String)) (bad : List String)
    (post : List (List String))
    (hpre : ∀ r ∈ pre, 2 ≤ r.length) (hbad : bad.length < 2)
    (pre2 : List String) (bad2 : String) (post2 : List String)
    (hpre2 : ∀ l ∈ pre2, (pySplit ',' (pyStrip l.data)).length = 2)
    (hbad2 : (pySplit ',' (pyStrip bad2.data)).length ≠ 2)
    (idx : Nat) (s s' : DiskState) :
    ((FloodDatasetGenerator.call codec remote context
        (pre ++ bad :: post) true stream_cache s).2.2 = some .indexError ∧
     (FloodDatasetGenerator.call codec remote context
        (pre ++ bad :: post) true stream_cache s).2.1.length =
       pre.length) ∧
    ((Sen1floods11Dataset.generate_examples codec remote context no_cache
        procImage procMask (pre2 ++ bad2 :: post2) idx s').2.2 =
       some .unpackError ∧
     (Sen1floods11Dataset.generate_examples codec remote context no_cache
        procImage procMask (pre2 ++ bad2 :: post2) idx s').2.1.length =
       pre2.length) := by
  constructor
  · obtain ⟨s2, he, hl⟩ := call_append codec remote hdec hrem context
      stream_cache pre (bad :: post) hpre s
    obtain ⟨h1, h2⟩ := call_indexError codec remote hdec hrem context
      stream_cache bad hbad post s2
    exact ⟨he.trans h1, by rw [hl, h2]; simp⟩
  · obtain ⟨s2, idx2, he, hl⟩ := generate_append codec remote hdec hrem
      context no_cache procImage procMask pre2 (bad2 :: post2) hpre2 idx s'
    have h1 := generate_unpack codec remote context no_cache procImage
      procMask bad2 hbad2 post2 idx2 s2
    refine ⟨he.trans (by rw [h1]), ?_⟩
    rw [hl, h1]
    simp

/-- Witness for C3 (amended): a one-field row after a well-formed row in
the standalone variant, and a three-field line after a well-formed line
in the framework variant. -/
theorem C3_malformed_row_amended_witness :
    ((FloodDatasetGenerator.call testCodec testRemote "ctx"
        ([["a", "b"]] ++ [["x"]] ++ []) true true emptyDisk).2.2 =
          some .indexError ∧
     (FloodDatasetGenerator.call testCodec testRemote "ctx"
        ([["a", "b"]] ++ [["x"]] ++ []) true true emptyDisk).2.1.length =
       [["a", "b"]].length) ∧
    ((Sen1floods11Dataset.generate_examples testCodec testRemote "ctx"
        false (fun n => n + 1) (fun n => n)
        (["a,b"] ++ ["x,y,z"] ++ []) 0 emptyDisk).2.2 =
       some .unpackError ∧
     (Sen1floods11Dataset.generate_examples testCodec testRemote "ctx"
        false (fun n => n + 1) (fun n => n)
        (["a,b"] ++ ["x,y,z"] ++ []) 0 emptyDisk).2.1.length =
       ["a,b"].length) :=
  C3_malformed_row_amended testCodec testRemote
    (fun _ => rfl) (fun _ => rfl) "ctx" true false
    (fun n => n + 1) (fun n => n) [["a", "b"]] ["x"] []
    (by decide) (by decide) ["a,b"] "x,y,z" [] (by decide) (by decide)
    0 emptyDisk emptyDisk

/-! ## Claim C6: length agreement and example count -/

/-- C6.  For a valid manifest of `N` rows (each row exactly two fields),
`__len__` reports `N`; and when every file resolves (total codec and
remote store), iterating the standalone generator yields exactly `N`
examples with no error, and iterating the framework generator yields
exactly `N` indexed examples with no error — each example carrying its
`image` and `mask` fields by construction. -/
theorem C6_len_and_example_count {Img Prof A B : Type}
    (codec : Codec Img Prof) (remote : String → Option Bytes)
    (hdec : ∀ b, (codec.decode b).isSome) (hrem : ∀ p, (remote p).isSome)
    (context : String) (stream_cache no_cache : Bool)
    (procImage : Img → A) (procMask : Img → B)
    (rows : List (List String)) (hrows : ∀ r ∈ rows, r.length = 2)
    (lines : List String)
    (hlines : ∀ l ∈ lines, (pySplit ',' (pyStrip l.data)).length = 2)
    (idx : Nat) (s s' : DiskState) :
    FloodDatasetGenerator.lenRows rows = rows.length ∧
    ((FloodDatasetGenerator.call codec remote context rows true
        stream_cache s).2.2 = none ∧
     (FloodDatasetGenerator.call codec remote context rows true
        stream_cache s).2.1.length = rows.length) ∧
    ((Sen1floods11Dataset.generate_examples codec remote context no_cache
        procImage procMask lines idx s').2.2 = none ∧
     (Sen1floods11Dataset.generate_examples codec remote context no_cache
        procImage procMask lines idx s').2.1.length = lines.length) := by
  refine ⟨rfl, ?_, ?_⟩
  · obtain ⟨s2, he, hl⟩ := call_append codec remote hdec hrem context
      stream_cache rows [] (fun r hr => (hrows r hr).ge) s
    rw [List.append_nil] at he hl
    exact ⟨he, by rw [hl]; simp [FloodDatasetGenerator.call]⟩
  · obtain ⟨s2, idx2, he, hl⟩ := generate_append codec remote hdec hrem
      context no_cache procImage procMask lines [] hlines idx s'
    rw [List.append_nil] at he hl
    exact ⟨he, by rw [hl]; simp [Sen1floods11Dataset.generate_examples]⟩

/-- Witness for C6 on a one-row manifest. -/
theorem C6_len_and_example_count_witness :
    FloodDatasetGenerator.lenRows [["a", "b"]] = [["a", "b"]].length ∧
    ((FloodDatasetGenerator.call testCodec testRemote "ctx" [["a", "b"]]
        true true emptyDisk).2.2 = none ∧
     (FloodDatasetGenerator.call testCodec testRemote "ctx" [["a", "b"]]
        true true emptyDisk).2.1.length = [["a", "b"]].length) ∧
    ((Sen1floods11Dataset.generate_examples testCodec testRemote "ctx"
        false (fun n => n + 1) (fun n => n) ["a,b"] 0 emptyDisk).2.2 =
       none ∧
     (Sen1floods11Dataset.generate_examples testCodec testRemote "ctx"
        false (fun n => n + 1) (fun n => n) ["a,b"] 0
        emptyDisk).2.1.length = ["a,b"].length) :=
  C6_len_and_example_count testCodec testRemote (fun _ => rfl)
    (fun _ => rfl) "ctx" true false (fun n => n + 1) (fun n => n)
    [["a", "b"]] (by decide) ["a,b"] (by decide) 0 emptyDisk emptyDisk


